import Mathlib

/-!
Shallow embedding of the BYOK chat backend (src/backend/app.py, src/backend/models.py).

The embedding mirrors the chat relay of `app.py`: credential resolution
(app.py:929-958), thread resolution and user-message persistence
(app.py:962-1013), the resumable stream cache (app.py:911, 1050-1051,
1169-1177), the generation loop with its single non-streaming fallback
(app.py:1187-1330), and conversation branching (app.py:721-791).

Machine-level details that are external collaborators in the source
(HTTP transport, Fernet decryption, SQLAlchemy sessions) are modelled as
explicit parameters; fallible upstream calls are modelled by outcome
values.  The `Message` record follows `models.py` exactly: note that it
has no error_info column.
-/

namespace BYOK

/-- API key row, from models.py:54-66. -/
structure APIKey where
  id : Nat
  user_id : Nat
  provider : String
  model_name : String
  encrypted_key : String
  key_name : String
  is_active : Bool
deriving Repr, DecidableEq

/-- Thread row, from models.py:68-81. -/
structure Thread where
  id : Nat
  user_id : Nat
  title : String
  provider : String
  model_name : String
  created_at : Nat
  updated_at : Nat
deriving Repr, DecidableEq

/-- Message row, from models.py:83-95.  The table has exactly these
columns; in particular there is no error_info column. -/
structure Message where
  id : Nat
  thread_id : Nat
  role : String
  content : String
  created_at : Nat
  parent_message_id : Option Nat
  branch_id : Option String
deriving Repr, DecidableEq

/-- Database state visible to the chat relay. -/
structure DB where
  keys : List APIKey
  threads : List Thread
  messages : List Message
deriving Repr, DecidableEq

/-- Filter of the first credential query (app.py:930-935): exact
(user, provider, model) match among active keys. -/
def keyMatchesExact (uid : Nat) (provider model : String) (k : APIKey) : Bool :=
  k.user_id == uid && k.provider == provider && k.model_name == model && k.is_active

/-- Filter of the second credential query (app.py:938-944): provider-wide
key, model_name in {*, empty}, active. -/
def keyMatchesWildcard (uid : Nat) (provider : String) (k : APIKey) : Bool :=
  k.user_id == uid && k.provider == provider &&
    (k.model_name == "*" || k.model_name == "") && k.is_active

/-- Filter of the last-resort credential query (app.py:947-952): any
active key of this user for the provider. -/
def keyMatchesProvider (uid : Nat) (provider : String) (k : APIKey) : Bool :=
  k.user_id == uid && k.provider == provider && k.is_active

/-- Credential resolution of the /chat endpoint (app.py:929-952): three
queries tried in order, first match wins. -/
def resolveApiKey (keys : List APIKey) (uid : Nat) (provider model : String) :
    Option APIKey :=
  match keys.find? (keyMatchesExact uid provider model) with
  | some k => some k
  | none =>
    match keys.find? (keyMatchesWildcard uid provider) with
    | some k => some k
    | none => keys.find? (keyMatchesProvider uid provider)

/-- Body of POST /chat, from app.py:913-921. -/
structure ChatRequest where
  message : String
  thread_id : Option Nat
  provider : String
  model_name : String
  stream : Bool
  branch_id : Option String
  resume_from_chunk : Option Nat
  stream_id : Option String
deriving Repr, DecidableEq

/-- The process-wide STREAMING_CACHE dict (app.py:911), keyed by stream
identifier, holding the increments appended so far. -/
abbrev StreamCache := List (String × List String)

/-- Dict lookup: STREAMING_CACHE.get(sid). -/
def cacheLookup (c : StreamCache) (sid : String) : Option (List String) :=
  (c.find? (fun e => e.1 == sid)).map (·.2)

/-- Dict assignment: STREAMING_CACHE[sid] = v. -/
def cacheSet (c : StreamCache) (sid : String) (v : List String) : StreamCache :=
  if (c.find? (fun e => e.1 == sid)).isSome then
    c.map (fun e => if e.1 == sid then (sid, v) else e)
  else
    c ++ [(sid, v)]

/-- STREAMING_CACHE[sid].append(x), as used at app.py:1217 etc. -/
def cacheAppend (c : StreamCache) (sid : String) (x : String) : StreamCache :=
  cacheSet c sid ((cacheLookup c sid).getD [] ++ [x])

/-- Append a batch of increments in order. -/
def cacheAppendAll (c : StreamCache) (sid : String) (xs : List String) : StreamCache :=
  xs.foldl (fun acc x => cacheAppend acc sid x) c

/-- del STREAMING_CACHE[sid] (app.py:1287, 1330). -/
def cacheDelete (c : StreamCache) (sid : String) : StreamCache :=
  c.filter (fun e => e.1 != sid)

/-- The guard at app.py:1050-1051: create an empty cache entry for the
stream id when none exists yet. -/
def initCache (c : StreamCache) (sid : String) : StreamCache :=
  if (cacheLookup c sid).isSome then c else cacheSet c sid []

/-- One server-sent event frame of the /chat stream (app.py:1173, 1284,
1293, 1297, 1327). -/
inductive Frame where
  | content (text : String) (chunk_index : Nat) (stream_id : String)
  | error (msg : String) (stream_id : String)
  | done (thread_id : Nat) (total_chunks : Nat) (stream_id : String)
deriving Repr, DecidableEq

/-- Frames produced by enumerate(xs, start=start) at app.py:1172-1173 and
app.py:1291-1293: one content frame per increment, tagged with its index. -/
def indexedFrames (xs : List String) (start : Nat) (sid : String) : List Frame :=
  match xs with
  | [] => []
  | x :: rest => Frame.content x start sid :: indexedFrames rest (start + 1) sid

/-- Outcome of the first upstream completion call (app.py:1205) together
with the consumption of its stream (app.py:1208-1252).  `raises` means the
call itself raised (caught at app.py:1253); `ok cs` means the call
returned and iteration extracted the increments cs; `okThenRaises cs e`
means iteration raised after extracting cs (also caught at app.py:1253,
leaving the response local bound). -/
inductive UpstreamOutcome where
  | raises (msg : String)
  | ok (chunks : List String)
  | okThenRaises (chunks : List String) (msg : String)
deriving Repr, DecidableEq

/-- Outcome of the non-streaming fallback call (app.py:1267-1279):
either the call raised, or it returned and extract_content_from_chunk
produced the given text (empty when nothing could be extracted). -/
inductive FallbackOutcome where
  | raises (msg : String)
  | ok (extracted : String)
deriving Repr, DecidableEq

/-- The value of content_chunks after the attempt body, including the
unconditional re-extraction at app.py:1257-1261, which overwrites the
accumulated chunks whenever it yields non-empty text.  `reExtract` is
what extract_content_from_chunk returns on the (already consumed)
response object there; in the non-streaming branch (app.py:1247-1252)
the same extraction already produced it once. -/
def primaryChunks (req : ChatRequest) (primary : UpstreamOutcome)
    (reExtract : String) : List String :=
  match primary with
  | .raises _ => []
  | .ok cs | .okThenRaises cs _ =>
    if reExtract != "" then [reExtract]
    else if req.stream then cs else []

/-- Increments appended to the stream cache during the attempt body, in
order: the streamed increments (app.py:1217/1227/1233/1240/1246) or the
single extracted content (app.py:1252), plus the duplicate append of the
re-extraction at app.py:1261. -/
def primaryCacheAppends (req : ChatRequest) (primary : UpstreamOutcome)
    (reExtract : String) : List String :=
  match primary with
  | .raises _ => []
  | .ok cs | .okThenRaises cs _ =>
    (if req.stream then cs else if reExtract != "" then [reExtract] else []) ++
      (if reExtract != "" then [reExtract] else [])

/-- The error_msg local (app.py:1187, 1254): set only when an exception
was caught in the attempt body. -/
def primaryErrorMsg : UpstreamOutcome → String
  | .raises e => e
  | .ok _ => ""
  | .okThenRaises _ e => e

/-- Truthiness of response_content.strip() at app.py:1304: the
accumulated text contains a non-whitespace character.  (Python str.strip
yields a non-empty string exactly in that case.) -/
def stripNonempty (s : String) : Bool :=
  s.data.any (fun c => !c.isWhitespace)

/-- Result of running the generate_response async generator to
completion (or to its unhandled exception). -/
structure GenResult where
  frames : List Frame
  aborted : Bool
  cache : StreamCache
  messages : List Message
  thread : Thread
  calls : List Bool
deriving Repr, DecidableEq

/-- Terminal failure path, app.py:1282-1288: emit the in-band error
frame, delete the cache entry, persist nothing. -/
def finishError (msgs : List Message) (thread : Thread) (cache : StreamCache)
    (sid : String) (errorMsg : String) (calls : List Bool) : GenResult :=
  { frames := [Frame.error ("Request failed after 1 attempts: " ++ errorMsg) sid],
    aborted := false,
    cache := cacheDelete cache sid,
    messages := msgs,
    thread := thread,
    calls := calls }

/-- Unhandled-exception path: when the completion call raised, the code
at app.py:1258 reads the never-assigned response local, so an
UnboundLocalError escapes the generator before any frame is yielded;
the cache entry is not deleted and nothing is persisted. -/
def finishAbort (msgs : List Message) (thread : Thread) (cache : StreamCache)
    (calls : List Bool) : GenResult :=
  { frames := [],
    aborted := true,
    cache := cache,
    messages := msgs,
    thread := thread,
    calls := calls }

/-- Success path, app.py:1290-1330: emit content_chunks[start_chunk:]
with running indices, persist the assistant message when the accumulated
text is non-blank (a database failure there is caught and only logged,
app.py:1324-1325), always emit the done frame, delete the cache entry. -/
def finishSuccess (req : ChatRequest) (thread : Thread) (userMessageId : Nat)
    (msgs : List Message) (cache : StreamCache) (chunks : List String)
    (startChunk : Nat) (sid : String) (dbOk : Bool) (assistantMsgId now : Nat)
    (calls : List Bool) : GenResult :=
  let emitted := chunks.drop startChunk
  let responseContent := String.join emitted
  let persisted := stripNonempty responseContent && dbOk
  { frames := indexedFrames emitted startChunk sid ++
      [Frame.done thread.id chunks.length sid],
    aborted := false,
    cache := cacheDelete cache sid,
    messages :=
      if persisted then
        msgs ++ [{ id := assistantMsgId, thread_id := thread.id,
                   role := "assistant", content := responseContent,
                   created_at := now, parent_message_id := some userMessageId,
                   branch_id := req.branch_id }]
      else msgs,
    thread := if persisted then { thread with updated_at := now } else thread,
    calls := calls }

/-- The generate_response async generator (app.py:1042-1330), run to
completion.  The while loop at app.py:1188 executes its body exactly
once since max_retries = 1.  Upstream behaviour is supplied by
`primary` (first completion call and stream consumption), `reExtract`
(the unconditional re-extraction at app.py:1258) and `fallback` (the
non-streaming fallback call at app.py:1269); `dbOk` tells whether the
assistant-message commit succeeds.  `calls` records the stream flag of
each upstream completion call actually made, in order. -/
def generateResponse (req : ChatRequest) (thread : Thread) (userMessageId : Nat)
    (msgs : List Message) (cache0 : StreamCache)
    (primary : UpstreamOutcome) (reExtract : String) (fallback : FallbackOutcome)
    (dbOk : Bool) (freshStreamId : String) (assistantMsgId now : Nat) : GenResult :=
  let sid := req.stream_id.getD freshStreamId
  let startChunk := req.resume_from_chunk.getD 0
  let cache1 := initCache cache0 sid
  let cachedSuffix := ((cacheLookup cache1 sid).getD []).drop startChunk
  if startChunk > 0 && !cachedSuffix.isEmpty then
    { frames := indexedFrames cachedSuffix startChunk sid,
      aborted := false, cache := cache1, messages := msgs, thread := thread,
      calls := [] }
  else
    match primary with
    | .raises _ => finishAbort msgs thread cache1 [req.stream]
    | _ =>
      let chunks := primaryChunks req primary reExtract
      let cache2 := cacheAppendAll cache1 sid (primaryCacheAppends req primary reExtract)
      if !chunks.isEmpty then
        finishSuccess req thread userMessageId msgs cache2 chunks startChunk sid
          dbOk assistantMsgId now [req.stream]
      else
        match fallback with
        | .raises _ =>
          finishError msgs thread cache2 sid (primaryErrorMsg primary)
            [req.stream, false]
        | .ok extracted =>
          if extracted != "" then
            finishSuccess req thread userMessageId msgs
              (cacheAppend cache2 sid extracted) [extracted] startChunk sid
              dbOk assistantMsgId now [req.stream, false]
          else
            finishError msgs thread cache2 sid (primaryErrorMsg primary)
              [req.stream, false]

/-- Thread title seeding at app.py:972: first 50 characters of the first
message, ellipsized when truncated. -/
def titleFor (message : String) : String :=
  if message.length > 50 then message.take 50 ++ "..." else message

/-- The parent lookup at app.py:1001-1005: latest message of the given
branch of the thread with created_at strictly before now. -/
def lastBranchMessage (msgs : List Message) (tid : Nat) (b : String) (now : Nat) :
    Option Message :=
  (msgs.filter fun m =>
      m.thread_id == tid && m.branch_id == some b && m.created_at < now).foldl
    (fun acc m =>
      match acc with
      | none => some m
      | some a => if m.created_at > a.created_at then some m else some a)
    none

/-- Conversation history fed to the upstream call (app.py:1015-1038):
messages of the thread filtered to the requested branch (or to the main
line), ordered by created_at, projected to (role, content). -/
def conversationHistory (msgs : List Message) (tid : Nat)
    (branchId : Option String) : List (String × String) :=
  ((msgs.filter fun m =>
      m.thread_id == tid &&
        (match branchId with
         | some b => m.branch_id == some b
         | none => m.branch_id == none)).mergeSort
    (fun a b => decide (a.created_at ≤ b.created_at))).map
    (fun m => (m.role, m.content))

/-- Observable steps of one /chat invocation, used to state ordering
properties of the relay. -/
inductive Step where
  | persistUserMessage (m : Message)
  | upstreamCall (stream : Bool)
deriving Repr, DecidableEq

/-- Result of one /chat invocation: the database afterwards, the HTTP
outcome, and the ordered step trace. -/
structure ChatResult where
  db : DB
  response : Except (Nat × String) GenResult
  steps : List Step
deriving Repr

/-- Identifiers generated during the request (uuid4 defaults and the
server-generated stream id). -/
structure FreshIds where
  threadId : Nat
  userMsgId : Nat
  assistantMsgId : Nat
  streamId : String
deriving Repr, DecidableEq

/-- Whether thread resolution at app.py:962-968 succeeds. -/
def threadOk (db : DB) (uid : Nat) : Option Nat → Bool
  | none => true
  | some tid => (db.threads.find? fun t => t.id == tid && t.user_id == uid).isSome

/-- The tail of the /chat handler once a thread is in hand
(app.py:993-1330): build and commit the user message with branch and
parent linkage, then run generate_response; the trace records the
user-message commit followed by the upstream calls the generator makes. -/
def chatWithThread (db : DB) (req : ChatRequest) (thread : Thread)
    (cache0 : StreamCache) (primary : UpstreamOutcome) (reExtract : String)
    (fallback : FallbackOutcome) (dbOk : Bool) (fresh : FreshIds)
    (now now2 : Nat) : ChatResult :=
  let parent : Option Nat :=
    match req.branch_id with
    | some b => (lastBranchMessage db.messages thread.id b now).map (·.id)
    | none => none
  let userMsg : Message :=
    { id := fresh.userMsgId, thread_id := thread.id, role := "user",
      content := req.message, created_at := now,
      parent_message_id := parent, branch_id := req.branch_id }
  let db1 : DB := { db with messages := db.messages ++ [userMsg] }
  let g := generateResponse req thread userMsg.id db1.messages cache0 primary
    reExtract fallback dbOk fresh.streamId fresh.assistantMsgId now2
  { db := { db1 with
      messages := g.messages,
      threads := db1.threads.map fun t => if t.id == thread.id then g.thread else t },
    response := .ok g,
    steps := Step.persistUserMessage userMsg :: g.calls.map Step.upstreamCall }

/-- The /chat handler (app.py:923-1330): resolve a credential
(three-tier, 400 when none), resolve or create the thread (404 when a
given id is not owned by the caller), then hand off to
`chatWithThread`.  On the 400 and 404 paths the database is returned
untouched and no step is taken. -/
def chat (db : DB) (uid : Nat) (req : ChatRequest) (cache0 : StreamCache)
    (primary : UpstreamOutcome) (reExtract : String) (fallback : FallbackOutcome)
    (dbOk : Bool) (fresh : FreshIds) (now now2 : Nat) : ChatResult :=
  match resolveApiKey db.keys uid req.provider req.model_name with
  | none =>
    { db := db,
      response := .error (400, "No active API key found for provider: " ++
        req.provider ++ ". Please add one in the API Keys tab."),
      steps := [] }
  | some _ =>
    match req.thread_id with
    | some tid =>
      match db.threads.find? (fun t => t.id == tid && t.user_id == uid) with
      | none => { db := db, response := .error (404, "Thread not found"), steps := [] }
      | some t =>
        chatWithThread db req t cache0 primary reExtract fallback dbOk fresh now now2
    | none =>
      let t : Thread :=
        { id := fresh.threadId, user_id := uid, title := titleFor req.message,
          provider := req.provider, model_name := req.model_name,
          created_at := now, updated_at := now }
      chatWithThread { db with threads := db.threads ++ [t] } req t cache0
        primary reExtract fallback dbOk fresh now now2

/-- The copy loop of the branch endpoint (app.py:769-780): one fresh-id
copy per source message, preserving role, content, created_at and
parent link, tagged with the new branch id. -/
def branchCopies (tid : Nat) (newBid : String) : Nat → List Message → List Message
  | _, [] => []
  | fid, m :: rest =>
    { id := fid, thread_id := tid, role := m.role, content := m.content,
      created_at := m.created_at, parent_message_id := m.parent_message_id,
      branch_id := some newBid } :: branchCopies tid newBid (fid + 1) rest

/-- The query at app.py:760-767: main-line messages of the thread with
created_at up to the fork point, ordered by created_at. -/
def mainUpTo (msgs : List Message) (tid : Nat) (target : Message) : List Message :=
  (msgs.filter fun m =>
      m.thread_id == tid && m.branch_id == none &&
        decide (m.created_at ≤ target.created_at)).mergeSort
    (fun a b => decide (a.created_at ≤ b.created_at))

/-- The branch endpoint body after the thread and message lookups
(app.py:744-782): copy the main line up to the target into a fresh
branch and commit; source rows are only read, the copies are appended. -/
def create_branch (msgs : List Message) (tid : Nat) (target : Message)
    (newBid : String) (freshBase : Nat) : List Message :=
  msgs ++ branchCopies tid newBid freshBase (mainUpTo msgs tid target)

/-- The fields of a message that the branch copy preserves. -/
def copyFields (m : Message) : String × String × Nat × Option Nat :=
  (m.role, m.content, m.created_at, m.parent_message_id)

/-- The counted loop of process_sync_generator_safe (app.py:1153-1164):
chunk_count is incremented first and iteration breaks once it exceeds
10000; non-empty extracted contents are collected. -/
def processLoop (extract : α → String) : Nat → List α → List String
  | _, [] => []
  | count, c :: rest =>
    if count + 1 > 10000 then []
    else
      (if extract c != "" then [extract c] else []) ++
        processLoop extract (count + 1) rest

/-- process_sync_generator_safe (app.py:1148-1167).  Note: this helper
is defined inside generate_response but never invoked anywhere in the
source. -/
def process_sync_generator_safe (extract : α → String) (gen : List α) :
    List String :=
  processLoop extract 0 gen

/-- The streaming consumption loop that the relay actually runs
(app.py:1213-1217 and 1236-1240): every chunk of the generator is
visited, non-empty extracted contents are collected, with no cap. -/
def relayStreamConsume (extract : α → String) : List α → List String
  | [] => []
  | c :: rest =>
    (if extract c != "" then [extract c] else []) ++ relayStreamConsume extract rest

/-- Fixture: a thread of user 7. -/
def wThread : Thread :=
  { id := 1, user_id := 7, title := "t", provider := "openai",
    model_name := "gpt-4", created_at := 0, updated_at := 0 }

/-- Fixture: a plain streaming chat request with no resumption. -/
def wReqPlain : ChatRequest :=
  { message := "hi", thread_id := some 1, provider := "openai",
    model_name := "gpt-4", stream := true, branch_id := none,
    resume_from_chunk := none, stream_id := some "s" }

/-- Fixture: a chat request resuming from chunk 2. -/
def wReqResume : ChatRequest :=
  { message := "hi", thread_id := some 1, provider := "openai",
    model_name := "gpt-4", stream := true, branch_id := none,
    resume_from_chunk := some 2, stream_id := some "s" }

/-- Fixture: a stored user message. -/
def wUserMsg : Message :=
  { id := 10, thread_id := 1, role := "user", content := "hi",
    created_at := 1, parent_message_id := none, branch_id := none }

/-- Fixture: a main-line user/assistant exchange for branching. -/
def wBranchMsgs : List Message :=
  [{ id := 20, thread_id := 1, role := "user", content := "q1",
     created_at := 1, parent_message_id := none, branch_id := none },
   { id := 21, thread_id := 1, role := "assistant", content := "a1",
     created_at := 2, parent_message_id := some 20, branch_id := none },
   { id := 22, thread_id := 1, role := "user", content := "q2",
     created_at := 3, parent_message_id := none, branch_id := none }]

/-- Fixture: an exact-match key of user 7. -/
def wKeyExact : APIKey :=
  { id := 1, user_id := 7, provider := "openai", model_name := "gpt-4",
    encrypted_key := "e1", key_name := "k1", is_active := true }

/-- Fixture: a provider-wide wildcard key of user 7. -/
def wKeyWild : APIKey :=
  { id := 2, user_id := 7, provider := "openai", model_name := "*",
    encrypted_key := "e2", key_name := "k2", is_active := true }

/-- Fixture: database for the /chat witnesses. -/
def wDB : DB :=
  { keys := [wKeyExact], threads := [wThread], messages := [] }

/-- Fixture: database with no key for the requested provider. -/
def wDBNoKey : DB :=
  { keys := [], threads := [wThread], messages := [] }

/-- Fixture: generated identifiers for one /chat invocation. -/
def wFresh : FreshIds :=
  { threadId := 2, userMsgId := 10, assistantMsgId := 11, streamId := "f" }

theorem keyMatchesExact_provider (uid : Nat) (provider model : String)
    (k : APIKey) (h : keyMatchesExact uid provider model k = true) :
    keyMatchesProvider uid provider k = true := by
  simp only [keyMatchesExact, Bool.and_eq_true] at h
  simp only [keyMatchesProvider, Bool.and_eq_true]
  exact ⟨⟨h.1.1.1, h.1.1.2⟩, h.2⟩

theorem keyMatchesWildcard_provider (uid : Nat) (provider : String)
    (k : APIKey) (h : keyMatchesWildcard uid provider k = true) :
    keyMatchesProvider uid provider k = true := by
  simp only [keyMatchesWildcard, Bool.and_eq_true] at h
  simp only [keyMatchesProvider, Bool.and_eq_true]
  exact ⟨⟨h.1.1.1, h.1.1.2⟩, h.2⟩

theorem find?_some_of_exists {α : Type} {p : α → Bool} {l : List α}
    (h : ∃ x ∈ l, p x = true) : ∃ k, l.find? p = some k ∧ p k = true := by
  match hf : l.find? p with
  | some k => exact ⟨k, rfl, List.find?_some hf⟩
  | none =>
    obtain ⟨x, hx, hpx⟩ := h
    have := List.find?_eq_none.mp hf x hx
    simp [hpx] at this

/-- Claim C2: credential resolution considers only active keys of the
requesting user for the requested provider, returns an exact
(provider, model) key when one exists, otherwise a provider-wide
wildcard key, otherwise any active key for the provider, independently
of key storage order, and yields no key exactly when the user has no
active key for the provider. -/
theorem resolveApiKey_priority (keys : List APIKey) (uid : Nat)
    (provider model : String) :
    (∀ k, resolveApiKey keys uid provider model = some k →
      k ∈ keys ∧ keyMatchesProvider uid provider k = true) ∧
    ((∃ k ∈ keys, keyMatchesExact uid provider model k = true) →
      ∃ k, resolveApiKey keys uid provider model = some k ∧
        keyMatchesExact uid provider model k = true) ∧
    ((∀ k ∈ keys, keyMatchesExact uid provider model k = false) →
      (∃ k ∈ keys, keyMatchesWildcard uid provider k = true) →
      ∃ k, resolveApiKey keys uid provider model = some k ∧
        keyMatchesWildcard uid provider k = true) ∧
    ((∀ k ∈ keys, keyMatchesExact uid provider model k = false) →
      (∀ k ∈ keys, keyMatchesWildcard uid provider k = false) →
      (∃ k ∈ keys, keyMatchesProvider uid provider k = true) →
      ∃ k, resolveApiKey keys uid provider model = some k ∧
        keyMatchesProvider uid provider k = true) ∧
    (resolveApiKey keys uid provider model = none ↔
      ∀ k ∈ keys, keyMatchesProvider uid provider k = false) := by
  refine ⟨?_, ?_, ?_, ?_, ?_⟩
  · intro k h
    unfold resolveApiKey at h
    split at h
    next k1 heq =>
      injection h with h
      subst h
      exact ⟨List.mem_of_find?_eq_some heq,
        keyMatchesExact_provider uid provider model _ (List.find?_some heq)⟩
    next =>
      split at h
      next k2 heq2 =>
        injection h with h
        subst h
        exact ⟨List.mem_of_find?_eq_some heq2,
          keyMatchesWildcard_provider uid provider _ (List.find?_some heq2)⟩
      next =>
        exact ⟨List.mem_of_find?_eq_some h, List.find?_some h⟩
  · intro hex
    obtain ⟨k, hfind, hp⟩ := find?_some_of_exists hex
    exact ⟨k, by simp [resolveApiKey, hfind], hp⟩
  · intro hnoexact hex
    have hf1 : keys.find? (keyMatchesExact uid provider model) = none :=
      List.find?_eq_none.mpr (fun x hx => by simp [hnoexact x hx])
    obtain ⟨k, hfind, hp⟩ := find?_some_of_exists hex
    exact ⟨k, by simp [resolveApiKey, hf1, hfind], hp⟩
  · intro hnoexact hnowild hex
    have hf1 : keys.find? (keyMatchesExact uid provider model) = none :=
      List.find?_eq_none.mpr (fun x hx => by simp [hnoexact x hx])
    have hf2 : keys.find? (keyMatchesWildcard uid provider) = none :=
      List.find?_eq_none.mpr (fun x hx => by simp [hnowild x hx])
    obtain ⟨k, hfind, hp⟩ := find?_some_of_exists hex
    exact ⟨k, by simp [resolveApiKey, hf1, hf2, hfind], hp⟩
  · constructor
    · intro h k hk
      unfold resolveApiKey at h
      split at h
      next => simp at h
      next =>
        split at h
        next => simp at h
        next =>
          have := List.find?_eq_none.mp h k hk
          simpa using this
    · intro hall
      have hf3 : keys.find? (keyMatchesProvider uid provider) = none :=
        List.find?_eq_none.mpr (fun x hx => by simp [hall x hx])
      have hf1 : keys.find? (keyMatchesExact uid provider model) = none := by
        refine List.find?_eq_none.mpr (fun x hx => ?_)
        intro hc
        have := keyMatchesExact_provider uid provider model x hc
        simp [hall x hx] at this
      have hf2 : keys.find? (keyMatchesWildcard uid provider) = none := by
        refine List.find?_eq_none.mpr (fun x hx => ?_)
        intro hc
        have := keyMatchesWildcard_provider uid provider x hc
        simp [hall x hx] at this
      simp [resolveApiKey, hf1, hf2, hf3]

/-- Witness for C2: with a wildcard key stored before the exact key,
resolution still returns the exact key. -/
theorem resolveApiKey_priority_witness :
    ∃ k, resolveApiKey [wKeyWild, wKeyExact] 7 "openai" "gpt-4" = some k ∧
      keyMatchesExact 7 "openai" "gpt-4" k = true :=
  (resolveApiKey_priority [wKeyWild, wKeyExact] 7 "openai" "gpt-4").2.1
    ⟨wKeyExact, by decide, by decide⟩

/-- Claim C3: when the cache of the requested stream id holds increments
[0..n) and 0 < resume_from_chunk = k < n, the generator replays exactly
the cached increments k..n-1 in order, each tagged with its chunk index,
touches neither the database nor the cache, and makes no upstream call. -/
theorem generateResponse_replay (req : ChatRequest) (thread : Thread)
    (userMessageId : Nat) (msgs : List Message) (cache0 : StreamCache)
    (primary : UpstreamOutcome) (reExtract : String) (fallback : FallbackOutcome)
    (dbOk : Bool) (freshStreamId : String) (assistantMsgId now : Nat)
    (sid : String) (chunks : List String) (k : Nat)
    (hsid : req.stream_id = some sid)
    (hcache : cacheLookup cache0 sid = some chunks)
    (hk : req.resume_from_chunk = some k)
    (h0 : 0 < k) (hkn : k < chunks.length) :
    generateResponse req thread userMessageId msgs cache0 primary reExtract
        fallback dbOk freshStreamId assistantMsgId now =
      { frames := indexedFrames (chunks.drop k) k sid,
        aborted := false, cache := cache0, messages := msgs, thread := thread,
        calls := [] } := by
  have hne : (chunks.drop k).isEmpty = false := by
    rcases hd : chunks.drop k with _ | ⟨c, cs⟩
    · exfalso
      have hlen : chunks.length ≤ k := by
        have := congrArg List.length hd
        simpa [Nat.sub_eq_zero_iff_le] using this
      omega
    · rfl
  have hinit : initCache cache0 sid = cache0 := by
    simp [initCache, hcache]
  simp [generateResponse, hsid, hk, hinit, hcache, hne, h0]

/-- Witness for C3: a cache with five increments and resume_from_chunk 2
replays increments 2, 3, 4 with their indices and makes no upstream call. -/
theorem generateResponse_replay_witness :
    generateResponse wReqResume wThread 10 [] [("s", ["a", "b", "c", "d", "e"])]
        (.ok ["x"]) "" (.ok "") true "f" 11 9 =
      { frames := indexedFrames (["a", "b", "c", "d", "e"].drop 2) 2 "s",
        aborted := false, cache := [("s", ["a", "b", "c", "d", "e"])],
        messages := [], thread := wThread, calls := [] } :=
  generateResponse_replay wReqResume wThread 10 [] [("s", ["a", "b", "c", "d", "e"])]
    (.ok ["x"]) "" (.ok "") true "f" 11 9 "s" ["a", "b", "c", "d", "e"] 2
    rfl rfl rfl (by decide) (by decide)

/-- Claim C4: outside the replay path, the generator makes one or two
upstream calls, never more; a second call happens only when the first
attempt extracted zero content and never when the first call raised,
and that single retry is always made with streaming disabled; when the
first call raises (as an upstream HTTP error does), there is exactly
one call and the run terminates at once with no retry, no frames and
nothing persisted. -/
theorem generateResponse_retry_policy (req : ChatRequest) (thread : Thread)
    (userMessageId : Nat) (msgs : List Message) (cache0 : StreamCache)
    (primary : UpstreamOutcome) (reExtract : String) (fallback : FallbackOutcome)
    (dbOk : Bool) (freshStreamId : String) (assistantMsgId now : Nat)
    (hres : req.resume_from_chunk = none) :
    ((generateResponse req thread userMessageId msgs cache0 primary reExtract
        fallback dbOk freshStreamId assistantMsgId now).calls = [req.stream] ∨
      (generateResponse req thread userMessageId msgs cache0 primary reExtract
        fallback dbOk freshStreamId assistantMsgId now).calls = [req.stream, false]) ∧
    ((generateResponse req thread userMessageId msgs cache0 primary reExtract
        fallback dbOk freshStreamId assistantMsgId now).calls = [req.stream, false] →
      primaryChunks req primary reExtract = [] ∧ ∀ e, primary ≠ .raises e) ∧
    (∀ e, primary = .raises e →
      (generateResponse req thread userMessageId msgs cache0 primary reExtract
        fallback dbOk freshStreamId assistantMsgId now).calls = [req.stream] ∧
      (generateResponse req thread userMessageId msgs cache0 primary reExtract
        fallback dbOk freshStreamId assistantMsgId now).aborted = true ∧
      (generateResponse req thread userMessageId msgs cache0 primary reExtract
        fallback dbOk freshStreamId assistantMsgId now).frames = [] ∧
      (generateResponse req thread userMessageId msgs cache0 primary reExtract
        fallback dbOk freshStreamId assistantMsgId now).messages = msgs) := by
  rcases primary with e | cs | ⟨cs, e⟩
  · refine ⟨Or.inl ?_, ?_, ?_⟩
    · simp [generateResponse, hres, finishAbort]
    · intro hc
      simp [generateResponse, hres, finishAbort] at hc
    · intro e₂ _
      refine ⟨?_, ?_, ?_, ?_⟩ <;> simp [generateResponse, hres, finishAbort]
  · rcases hl : primaryChunks req (UpstreamOutcome.ok cs) reExtract with _ | ⟨x, xs⟩
    · have hcalls : (generateResponse req thread userMessageId msgs cache0
          (.ok cs) reExtract fallback dbOk freshStreamId assistantMsgId now).calls =
          [req.stream, false] := by
        rcases fallback with fe | ext
        · simp [generateResponse, hres, hl, finishError]
        · by_cases hext : ext = "" <;>
            simp [generateResponse, hres, hl, hext, finishError, finishSuccess]
      exact ⟨Or.inr hcalls, fun _ => ⟨rfl, fun e he => UpstreamOutcome.noConfusion he⟩,
        fun e he => UpstreamOutcome.noConfusion he⟩
    · have hcalls : (generateResponse req thread userMessageId msgs cache0
          (.ok cs) reExtract fallback dbOk freshStreamId assistantMsgId now).calls =
          [req.stream] := by
        simp [generateResponse, hres, hl, finishSuccess]
      refine ⟨Or.inl hcalls, ?_, fun e he => UpstreamOutcome.noConfusion he⟩
      intro hc
      rw [hcalls] at hc
      simp at hc
  · rcases hl : primaryChunks req (UpstreamOutcome.okThenRaises cs e) reExtract with _ | ⟨x, xs⟩
    · have hcalls : (generateResponse req thread userMessageId msgs cache0
          (.okThenRaises cs e) reExtract fallback dbOk freshStreamId assistantMsgId now).calls =
          [req.stream, false] := by
        rcases fallback with fe | ext
        · simp [generateResponse, hres, hl, finishError]
        · by_cases hext : ext = "" <;>
            simp [generateResponse, hres, hl, hext, finishError, finishSuccess]
      exact ⟨Or.inr hcalls, fun _ => ⟨rfl, fun e₂ he => UpstreamOutcome.noConfusion he⟩,
        fun e₂ he => UpstreamOutcome.noConfusion he⟩
    · have hcalls : (generateResponse req thread userMessageId msgs cache0
          (.okThenRaises cs e) reExtract fallback dbOk freshStreamId assistantMsgId now).calls =
          [req.stream] := by
        simp [generateResponse, hres, hl, finishSuccess]
      refine ⟨Or.inl hcalls, ?_, fun e₂ he => UpstreamOutcome.noConfusion he⟩
      intro hc
      rw [hcalls] at hc
      simp at hc

/-- Witness for C4: a first attempt that extracted zero content leads to
exactly one non-streaming retry. -/
theorem generateResponse_retry_policy_witness :
    (generateResponse wReqPlain wThread 10 [] [] (.ok []) "" (.ok "full") true
        "f" 11 9).calls = [wReqPlain.stream, false] ∧
    primaryChunks wReqPlain (.ok []) "" = [] :=
  ⟨by decide,
    ((generateResponse_retry_policy wReqPlain wThread 10 [] [] (.ok []) ""
        (.ok "full") true "f" 11 9 rfl).2.1 (by decide)).1⟩

/-- Claim C1 (amended): when the upstream call fails on every attempt, no
assistant message is persisted at all and the thread updated_at does not
advance; the run either aborts with the unhandled error raised by reading
the unbound response local (first call raised) or emits a terminal
in-band error frame carrying the captured error message (first call
returned nothing and the fallback raised).  There is no error_info field
to set. -/
theorem generateResponse_upstream_failure_no_assistant_message
    (req : ChatRequest) (thread : Thread) (userMessageId : Nat)
    (msgs : List Message) (cache0 : StreamCache) (primary : UpstreamOutcome)
    (reExtract fe : String) (dbOk : Bool) (freshStreamId : String)
    (assistantMsgId now : Nat)
    (hres : req.resume_from_chunk = none)
    (hzero : primaryChunks req primary reExtract = []) :
    (generateResponse req thread userMessageId msgs cache0 primary reExtract
        (.raises fe) dbOk freshStreamId assistantMsgId now).messages = msgs ∧
    (generateResponse req thread userMessageId msgs cache0 primary reExtract
        (.raises fe) dbOk freshStreamId assistantMsgId now).thread = thread ∧
    ((generateResponse req thread userMessageId msgs cache0 primary reExtract
        (.raises fe) dbOk freshStreamId assistantMsgId now).aborted = true ∧
      (generateResponse req thread userMessageId msgs cache0 primary reExtract
        (.raises fe) dbOk freshStreamId assistantMsgId now).frames = [] ∨
      (generateResponse req thread userMessageId msgs cache0 primary reExtract
        (.raises fe) dbOk freshStreamId assistantMsgId now).frames =
        [Frame.error ("Request failed after 1 attempts: " ++ primaryErrorMsg primary)
          (req.stream_id.getD freshStreamId)]) := by
  rcases primary with e | cs | ⟨cs, e⟩
  · refine ⟨?_, ?_, Or.inl ⟨?_, ?_⟩⟩ <;>
      simp [generateResponse, hres, finishAbort]
  · refine ⟨?_, ?_, Or.inr ?_⟩ <;>
      simp [generateResponse, hres, hzero, finishError, primaryErrorMsg]
  · refine ⟨?_, ?_, Or.inr ?_⟩ <;>
      simp [generateResponse, hres, hzero, finishError, primaryErrorMsg]

/-- Counterexample to claim C1 as stated: with the upstream completion
raising on every attempt, no assistant message is persisted to the thread
and updated_at does not advance (and the Message schema has no error_info
field that could be set). -/
theorem generateResponse_error_persistence_counterexample :
    ¬ ((∃ m ∈ (generateResponse wReqPlain wThread 10 [wUserMsg] []
          (.raises "boom") "" (.raises "boom") true "f" 11 9).messages,
          m.role = "assistant") ∨
        (generateResponse wReqPlain wThread 10 [wUserMsg] [] (.raises "boom")
          "" (.raises "boom") true "f" 11 9).thread.updated_at ≠
          wThread.updated_at) := by
  decide

/-- Witness for the amended C1: a concrete totally-failing run keeps the
message store unchanged. -/
theorem generateResponse_upstream_failure_witness :
    primaryChunks wReqPlain (.raises "boom") "" = [] ∧
    (generateResponse wReqPlain wThread 10 [wUserMsg] [] (.raises "boom") ""
        (.raises "bang") true "f" 11 9).messages = [wUserMsg] :=
  ⟨by decide,
    (generateResponse_upstream_failure_no_assistant_message wReqPlain wThread
      10 [wUserMsg] [] (.raises "boom") "" "bang" true "f" 11 9 rfl (by decide)).1⟩

/-- Claim C9: when streamed generation produced non-blank text but the
assistant-message commit fails, the failure is swallowed: the terminal
done frame with thread id and total chunk count is still emitted after
the content frames, while no assistant message is stored and the thread
is not touched. -/
theorem generateResponse_db_failure_still_done
    (req : ChatRequest) (thread : Thread) (userMessageId : Nat)
    (msgs : List Message) (cache0 : StreamCache) (cs : List String)
    (fallback : FallbackOutcome) (freshStreamId : String) (assistantMsgId now : Nat)
    (hres : req.resume_from_chunk = none)
    (hstream : req.stream = true)
    (hnb : stripNonempty (String.join cs) = true) :
    (generateResponse req thread userMessageId msgs cache0 (.ok cs) "" fallback
        false freshStreamId assistantMsgId now).frames =
      indexedFrames cs 0 (req.stream_id.getD freshStreamId) ++
        [Frame.done thread.id cs.length (req.stream_id.getD freshStreamId)] ∧
    (generateResponse req thread userMessageId msgs cache0 (.ok cs) "" fallback
        false freshStreamId assistantMsgId now).messages = msgs ∧
    (generateResponse req thread userMessageId msgs cache0 (.ok cs) "" fallback
        false freshStreamId assistantMsgId now).thread = thread ∧
    (generateResponse req thread userMessageId msgs cache0 (.ok cs) "" fallback
        false freshStreamId assistantMsgId now).aborted = false := by
  have hcs : cs.isEmpty = false := by
    rcases cs with _ | ⟨x, xs⟩
    · exact absurd hnb (by decide)
    · rfl
  refine ⟨?_, ?_, ?_, ?_⟩ <;>
    simp [generateResponse, hres, hstream, primaryChunks, hcs, finishSuccess]

/-- Witness for C9: non-blank output with a failing commit still ends in
the done frame and stores nothing. -/
theorem generateResponse_db_failure_witness :
    stripNonempty (String.join ["hello"]) = true ∧
    (generateResponse wReqPlain wThread 10 [wUserMsg] [] (.ok ["hello"]) ""
        (.ok "") false "f" 11 9).frames =
      indexedFrames ["hello"] 0 (wReqPlain.stream_id.getD "f") ++
        [Frame.done wThread.id (["hello"] : List String).length
          (wReqPlain.stream_id.getD "f")] ∧
    (generateResponse wReqPlain wThread 10 [wUserMsg] [] (.ok ["hello"]) ""
        (.ok "") false "f" 11 9).messages = [wUserMsg] :=
  have h := generateResponse_db_failure_still_done wReqPlain wThread 10 [wUserMsg]
    [] ["hello"] (.ok "") "f" 11 9 rfl rfl (by decide)
  ⟨by decide, h.1, h.2.1⟩

theorem find?_append_none {α : Type} (p : α → Bool) (l₁ l₂ : List α)
    (h : l₁.find? p = none) : (l₁ ++ l₂).find? p = l₂.find? p := by
  induction l₁ with
  | nil => simp
  | cons x xs ih =>
    cases hp : p x
    · simp only [List.cons_append, List.find?_cons, hp] at h ⊢
      exact ih h
    · simp only [List.find?_cons, hp] at h
      cases h

theorem cacheLookup_initCache (c : StreamCache) (sid : String) :
    cacheLookup (initCache c sid) sid = some ((cacheLookup c sid).getD []) := by
  cases h : cacheLookup c sid with
  | some v => simp [initCache, h]
  | none =>
    have hf : c.find? (fun e => e.1 == sid) = none := by
      unfold cacheLookup at h
      cases hf : c.find? (fun e => e.1 == sid)
      · rfl
      · simp [hf] at h
    unfold initCache
    rw [h]
    unfold cacheSet
    rw [hf]
    simp only [Option.isSome_none, Bool.false_eq_true, if_false, Option.getD_none]
    unfold cacheLookup
    rw [find?_append_none _ _ _ hf]
    simp [List.find?]

/-- Claim C10: a resume request whose stream id has no cached increment
at index k falls through to a fresh upstream generation, but both the
emitted frames and the persisted assistant content keep only the
extracted increments from index k on: the first k increments of the new
generation are dropped from both. -/
theorem generateResponse_resume_gap_drops_first_chunks
    (req : ChatRequest) (thread : Thread) (userMessageId : Nat)
    (msgs : List Message) (cache0 : StreamCache) (cs : List String)
    (fallback : FallbackOutcome) (freshStreamId sid : String)
    (assistantMsgId now : Nat) (k : Nat)
    (hsid : req.stream_id = some sid)
    (hk : req.resume_from_chunk = some k)
    (h0 : 0 < k)
    (hshort : ((cacheLookup cache0 sid).getD []).length ≤ k)
    (hstream : req.stream = true)
    (hnb : stripNonempty (String.join (cs.drop k)) = true) :
    (generateResponse req thread userMessageId msgs cache0 (.ok cs) "" fallback
        true freshStreamId assistantMsgId now).calls = [req.stream] ∧
    (generateResponse req thread userMessageId msgs cache0 (.ok cs) "" fallback
        true freshStreamId assistantMsgId now).frames =
      indexedFrames (cs.drop k) k sid ++ [Frame.done thread.id cs.length sid] ∧
    (generateResponse req thread userMessageId msgs cache0 (.ok cs) "" fallback
        true freshStreamId assistantMsgId now).messages =
      msgs ++ [{ id := assistantMsgId, thread_id := thread.id,
                 role := "assistant", content := String.join (cs.drop k),
                 created_at := now, parent_message_id := some userMessageId,
                 branch_id := req.branch_id }] ∧
    (generateResponse req thread userMessageId msgs cache0 (.ok cs) "" fallback
        true freshStreamId assistantMsgId now).thread =
      { thread with updated_at := now } := by
  have hsuffix : ((cacheLookup (initCache cache0 sid) sid).getD []).drop k = [] := by
    rw [cacheLookup_initCache]
    simpa using List.drop_eq_nil_of_le hshort
  have hcs : cs.isEmpty = false := by
    rcases cs with _ | ⟨x, xs⟩
    · rw [List.drop_nil] at hnb
      exact absurd hnb (by decide)
    · rfl
  refine ⟨?_, ?_, ?_, ?_⟩ <;>
    simp [generateResponse, hsid, hk, hsuffix, hstream, primaryChunks, hcs,
      finishSuccess, hnb]

/-- Witness for C10: resuming from chunk 2 with an empty cache drops the
first two increments of the fresh generation from frames and storage. -/
theorem generateResponse_resume_gap_witness :
    ((cacheLookup ([] : StreamCache) "s").getD []).length ≤ 2 ∧
    (generateResponse wReqResume wThread 10 [] [] (.ok ["a", "b", "c", "d"]) ""
        (.ok "") true "f" 11 9).frames =
      indexedFrames (["a", "b", "c", "d"].drop 2) 2 "s" ++
        [Frame.done wThread.id (["a", "b", "c", "d"] : List String).length "s"] ∧
    (generateResponse wReqResume wThread 10 [] [] (.ok ["a", "b", "c", "d"]) ""
        (.ok "") true "f" 11 9).messages =
      [] ++ [{ id := 11, thread_id := wThread.id, role := "assistant",
               content := String.join (["a", "b", "c", "d"].drop 2),
               created_at := 9, parent_message_id := some 10,
               branch_id := wReqResume.branch_id }] :=
  have h := generateResponse_resume_gap_drops_first_chunks wReqResume wThread 10 [] []
    ["a", "b", "c", "d"] (.ok "") "f" "s" 11 9 2 rfl rfl (by decide) (by decide)
    rfl (by decide)
  ⟨by decide, h.2.1, h.2.2.1⟩

theorem processLoop_eq_relay_take {α : Type} (extract : α → String) :
    ∀ (gen : List α) (count : Nat),
      processLoop extract count gen =
        relayStreamConsume extract (gen.take (10000 - count)) := by
  intro gen
  induction gen with
  | nil => intro count; simp [processLoop, relayStreamConsume]
  | cons c rest ih =>
    intro count
    by_cases h : count + 1 > 10000
    · have h0 : 10000 - count = 0 := by omega
      simp [processLoop, h, h0, relayStreamConsume]
    · have h2 : 10000 - count = (10000 - (count + 1)) + 1 := by omega
      simp [processLoop, h, h2, relayStreamConsume, ih (count + 1)]

theorem relayStreamConsume_length_le {α : Type} (extract : α → String) :
    ∀ gen : List α, (relayStreamConsume extract gen).length ≤ gen.length := by
  intro gen
  induction gen with
  | nil => simp [relayStreamConsume]
  | cons c rest ih =>
    by_cases h : extract c != ""
    · simp only [relayStreamConsume, h, if_true, List.singleton_append,
        List.length_cons]
      omega
    · have hb : (extract c != "") = false := by simpa using h
      simp [relayStreamConsume, hb]
      omega

theorem relayStreamConsume_all {α : Type} (extract : α → String) :
    ∀ gen : List α, (∀ c ∈ gen, extract c ≠ "") →
      relayStreamConsume extract gen = gen.map extract := by
  intro gen
  induction gen with
  | nil => intro _; simp [relayStreamConsume]
  | cons c rest ih =>
    intro h
    have hc : (extract c != "") = true := by
      simpa using h c (by simp)
    simp [relayStreamConsume, hc, ih (fun x hx => h x (by simp [hx]))]

/-- Claim C5 (amended): the helper process_sync_generator_safe does cap
consumption — it processes exactly the first 10000 chunks of the
generator and never collects more than 10000 increments — but the
iteration the relay actually runs on the upstream stream consumes every
chunk of the generator with no cap (one increment per content-bearing
chunk). -/
theorem streamConsumption_cap_status {α : Type} (extract : α → String)
    (gen : List α) :
    process_sync_generator_safe extract gen =
      relayStreamConsume extract (gen.take 10000) ∧
    (process_sync_generator_safe extract gen).length ≤ 10000 ∧
    ((∀ c ∈ gen, extract c ≠ "") →
      (relayStreamConsume extract gen).length = gen.length) := by
  have h1 : process_sync_generator_safe extract gen =
      relayStreamConsume extract (gen.take 10000) := by
    simpa [process_sync_generator_safe] using processLoop_eq_relay_take extract gen 0
  refine ⟨h1, ?_, ?_⟩
  · rw [h1]
    calc (relayStreamConsume extract (gen.take 10000)).length
        ≤ (gen.take 10000).length := relayStreamConsume_length_le extract _
      _ ≤ 10000 := by
          rw [List.length_take]
          exact Nat.min_le_left _ _
  · intro h
    rw [relayStreamConsume_all extract gen h]
    simp

/-- Counterexample to claim C5 as stated: the consumption loop the relay
actually runs collects 10001 increments from a 10001-chunk generator —
nothing truncates it at 10000 (the capped helper is never invoked). -/
theorem relay_consumes_beyond_cap :
    10000 < (relayStreamConsume (fun s => s) (List.replicate 10001 "x")).length := by
  rw [relayStreamConsume_all (fun s => s) _ (fun c hc => by
    have hx : c = "x" := List.eq_of_mem_replicate hc
    subst hx
    decide)]
  rw [List.length_map, List.length_replicate]
  omega

/-- Witness for the amended C5: the uncapped relay loop keeps every
content-bearing chunk of a short generator. -/
theorem streamConsumption_cap_witness :
    (relayStreamConsume (fun s => s) ["a", "b"]).length =
      (["a", "b"] : List String).length :=
  (streamConsumption_cap_status (fun s => s) ["a", "b"]).2.2 (by decide)

theorem branchCopies_branch_id (tid : Nat) (newBid : String) :
    ∀ (fid : Nat) (l : List Message) (c : Message),
      c ∈ branchCopies tid newBid fid l → c.branch_id = some newBid := by
  intro fid l
  induction l generalizing fid with
  | nil => intro c hc; simp [branchCopies] at hc
  | cons m rest ih =>
    intro c hc
    simp only [branchCopies, List.mem_cons] at hc
    rcases hc with rfl | hc
    · rfl
    · exact ih (fid + 1) c hc

theorem branchCopies_map_fields (tid : Nat) (newBid : String) :
    ∀ (fid : Nat) (l : List Message),
      (branchCopies tid newBid fid l).map copyFields = l.map copyFields := by
  intro fid l
  induction l generalizing fid with
  | nil => simp [branchCopies]
  | cons m rest ih =>
    simp [branchCopies, copyFields, ih]

/-- Claim C6: branching copies exactly the main-line messages with
created_at up to the fork point into the fresh branch, preserving role,
content, created_at and parent link of each; the source rows are
untouched — they stay as the unchanged prefix of the store and the main
line is filter-identical before and after. -/
theorem create_branch_spec (msgs : List Message) (tid : Nat) (target : Message)
    (newBid : String) (freshBase : Nat)
    (hfresh : ∀ m ∈ msgs, m.branch_id ≠ some newBid) :
    (create_branch msgs tid target newBid freshBase).take msgs.length = msgs ∧
    (create_branch msgs tid target newBid freshBase).length =
      msgs.length + (mainUpTo msgs tid target).length ∧
    (create_branch msgs tid target newBid freshBase).filter
        (fun m => m.branch_id == some newBid) =
      branchCopies tid newBid freshBase (mainUpTo msgs tid target) ∧
    List.Perm
      (((create_branch msgs tid target newBid freshBase).filter
          (fun m => m.branch_id == some newBid)).map copyFields)
      ((msgs.filter fun m => m.thread_id == tid && m.branch_id == none &&
          decide (m.created_at ≤ target.created_at)).map copyFields) ∧
    (create_branch msgs tid target newBid freshBase).filter
        (fun m => m.branch_id == none) =
      msgs.filter (fun m => m.branch_id == none) := by
  have hlen : (branchCopies tid newBid freshBase (mainUpTo msgs tid target)).length =
      (mainUpTo msgs tid target).length := by
    have := congrArg List.length
      (branchCopies_map_fields tid newBid freshBase (mainUpTo msgs tid target))
    simpa using this
  have hold : msgs.filter (fun m => m.branch_id == some newBid) = [] := by
    refine List.filter_eq_nil_iff.mpr (fun m hm => ?_)
    simpa using hfresh m hm
  have hcopies : (branchCopies tid newBid freshBase (mainUpTo msgs tid target)).filter
      (fun m => m.branch_id == some newBid) =
      branchCopies tid newBid freshBase (mainUpTo msgs tid target) := by
    refine List.filter_eq_self.mpr (fun c hc => ?_)
    simp [branchCopies_branch_id tid newBid freshBase _ c hc]
  have hfilter_new : (create_branch msgs tid target newBid freshBase).filter
      (fun m => m.branch_id == some newBid) =
      branchCopies tid newBid freshBase (mainUpTo msgs tid target) := by
    unfold create_branch
    rw [List.filter_append, hold, hcopies, List.nil_append]
  refine ⟨?_, ?_, hfilter_new, ?_, ?_⟩
  · unfold create_branch
    exact List.take_left msgs _
  · unfold create_branch
    rw [List.length_append, hlen]
  · rw [hfilter_new, branchCopies_map_fields]
    exact (List.mergeSort_perm _ _).map copyFields
  · unfold create_branch
    rw [List.filter_append]
    have hnone : (branchCopies tid newBid freshBase (mainUpTo msgs tid target)).filter
        (fun m => m.branch_id == none) = [] := by
      refine List.filter_eq_nil_iff.mpr (fun c hc => ?_)
      simp [branchCopies_branch_id tid newBid freshBase _ c hc]
    rw [hnone, List.append_nil]

/-- Witness for C6: branching a three-message main line at its second
message copies the first two messages into the new branch and leaves the
source untouched. -/
theorem create_branch_spec_witness :
    (∀ m ∈ wBranchMsgs, m.branch_id ≠ some "b1") ∧
    (create_branch wBranchMsgs 1
        { id := 21, thread_id := 1, role := "assistant", content := "a1",
          created_at := 2, parent_message_id := some 20, branch_id := none }
        "b1" 100).take wBranchMsgs.length = wBranchMsgs :=
  ⟨by decide,
    (create_branch_spec wBranchMsgs 1
      { id := 21, thread_id := 1, role := "assistant", content := "a1",
        created_at := 2, parent_message_id := some 20, branch_id := none }
      "b1" 100 (by decide)).1⟩

theorem resolveApiKey_eq_none_of_no_key (keys : List APIKey) (uid : Nat)
    (provider model : String)
    (h : ∀ k ∈ keys, keyMatchesProvider uid provider k = false) :
    resolveApiKey keys uid provider model = none := by
  have hf3 : keys.find? (keyMatchesProvider uid provider) = none :=
    List.find?_eq_none.mpr (fun x hx => by simp [h x hx])
  have hf1 : keys.find? (keyMatchesExact uid provider model) = none := by
    refine List.find?_eq_none.mpr (fun x hx => ?_)
    intro hc
    have := keyMatchesExact_provider uid provider model x hc
    simp [h x hx] at this
  have hf2 : keys.find? (keyMatchesWildcard uid provider) = none := by
    refine List.find?_eq_none.mpr (fun x hx => ?_)
    intro hc
    have := keyMatchesWildcard_provider uid provider x hc
    simp [h x hx] at this
  simp [resolveApiKey, hf1, hf2, hf3]

/-- Claim C8: a chat request by a user with no active stored key for the
requested provider fails immediately with the 400 client error; the
database is returned unchanged — no thread created, no message
persisted — and no step is taken. -/
theorem chat_no_key_rejected (db : DB) (uid : Nat) (req : ChatRequest)
    (cache0 : StreamCache) (primary : UpstreamOutcome) (reExtract : String)
    (fallback : FallbackOutcome) (dbOk : Bool) (fresh : FreshIds) (now now2 : Nat)
    (hnokey : ∀ k ∈ db.keys, keyMatchesProvider uid req.provider k = false) :
    chat db uid req cache0 primary reExtract fallback dbOk fresh now now2 =
      { db := db,
        response := .error (400, "No active API key found for provider: " ++
          req.provider ++ ". Please add one in the API Keys tab."),
        steps := [] } := by
  have hk := resolveApiKey_eq_none_of_no_key db.keys uid req.provider
    req.model_name hnokey
  simp [chat, hk]

/-- Witness for C8: a user with no stored keys gets the 400 error and an
untouched database. -/
theorem chat_no_key_rejected_witness :
    (∀ k ∈ wDBNoKey.keys, keyMatchesProvider 7 wReqPlain.provider k = false) ∧
    chat wDBNoKey 7 wReqPlain [] (.ok ["x"]) "" (.ok "") true wFresh 5 6 =
      { db := wDBNoKey,
        response := .error (400, "No active API key found for provider: " ++
          wReqPlain.provider ++ ". Please add one in the API Keys tab."),
        steps := [] } :=
  ⟨by decide,
    chat_no_key_rejected wDBNoKey 7 wReqPlain [] (.ok ["x"]) "" (.ok "") true
      wFresh 5 6 (by decide)⟩

theorem finishSuccess_messages_extends (req : ChatRequest) (thread : Thread)
    (userMessageId : Nat) (msgs : List Message) (cache : StreamCache)
    (chunks : List String) (startChunk : Nat) (sid : String) (dbOk : Bool)
    (assistantMsgId now : Nat) (calls : List Bool) :
    ∃ tail, (finishSuccess req thread userMessageId msgs cache chunks startChunk
      sid dbOk assistantMsgId now calls).messages = msgs ++ tail := by
  unfold finishSuccess
  by_cases hp : (stripNonempty (String.join (chunks.drop startChunk)) && dbOk) = true
  · refine ⟨[Message.mk assistantMsgId thread.id "assistant"
        (String.join (chunks.drop startChunk)) now (some userMessageId)
        req.branch_id], ?_⟩
    simp [hp]
  · have hp2 : (stripNonempty (String.join (chunks.drop startChunk)) && dbOk) = false := by
      simpa using hp
    exact ⟨[], by simp [hp2]⟩

theorem generateResponse_messages_extends (req : ChatRequest) (thread : Thread)
    (userMessageId : Nat) (msgs : List Message) (cache0 : StreamCache)
    (primary : UpstreamOutcome) (reExtract : String) (fallback : FallbackOutcome)
    (dbOk : Bool) (freshStreamId : String) (assistantMsgId now : Nat) :
    ∃ tail, (generateResponse req thread userMessageId msgs cache0 primary
      reExtract fallback dbOk freshStreamId assistantMsgId now).messages =
      msgs ++ tail := by
  rcases primary with e | cs | ⟨cs, e⟩
  · unfold generateResponse
    dsimp only
    split
    · exact ⟨[], by simp⟩
    · exact ⟨[], by simp [finishAbort]⟩
  · rcases fallback with fe | ext
    · unfold generateResponse
      dsimp only
      split
      · exact ⟨[], by simp⟩
      · split
        · exact finishSuccess_messages_extends _ _ _ _ _ _ _ _ _ _ _ _
        · exact ⟨[], by simp [finishError]⟩
    · unfold generateResponse
      dsimp only
      split
      · exact ⟨[], by simp⟩
      · split
        · exact finishSuccess_messages_extends _ _ _ _ _ _ _ _ _ _ _ _
        · split
          · exact finishSuccess_messages_extends _ _ _ _ _ _ _ _ _ _ _ _
          · exact ⟨[], by simp [finishError]⟩
  · rcases fallback with fe | ext
    · unfold generateResponse
      dsimp only
      split
      · exact ⟨[], by simp⟩
      · split
        · exact finishSuccess_messages_extends _ _ _ _ _ _ _ _ _ _ _ _
        · exact ⟨[], by simp [finishError]⟩
    · unfold generateResponse
      dsimp only
      split
      · exact ⟨[], by simp⟩
      · split
        · exact finishSuccess_messages_extends _ _ _ _ _ _ _ _ _ _ _ _
        · split
          · exact finishSuccess_messages_extends _ _ _ _ _ _ _ _ _ _ _ _
          · exact ⟨[], by simp [finishError]⟩

theorem chatWithThread_spec (db : DB) (req : ChatRequest) (thread : Thread)
    (cache0 : StreamCache) (primary : UpstreamOutcome) (reExtract : String)
    (fallback : FallbackOutcome) (dbOk : Bool) (fresh : FreshIds)
    (now now2 : Nat) :
    ∃ m rest,
      (chatWithThread db req thread cache0 primary reExtract fallback dbOk
        fresh now now2).steps = Step.persistUserMessage m :: rest ∧
      (∀ s ∈ rest, ∃ b, s = Step.upstreamCall b) ∧
      m.role = "user" ∧ m.content = req.message ∧
      m.branch_id = req.branch_id ∧
      m.parent_message_id = (req.branch_id.bind fun b =>
        (lastBranchMessage db.messages m.thread_id b now).map (·.id)) ∧
      m ∈ (chatWithThread db req thread cache0 primary reExtract fallback dbOk
        fresh now now2).db.messages := by
  refine ⟨Message.mk fresh.userMsgId thread.id "user" req.message now
      (match req.branch_id with
       | some b => (lastBranchMessage db.messages thread.id b now).map (·.id)
       | none => none) req.branch_id, _, rfl, ?_, rfl, rfl, rfl, ?_, ?_⟩
  · intro s hs
    obtain ⟨b, hb, rfl⟩ := List.mem_map.mp hs
    exact ⟨b, rfl⟩
  · cases req.branch_id <;> rfl
  · simp only [chatWithThread]
    obtain ⟨tail, htail⟩ := generateResponse_messages_extends req thread
      fresh.userMsgId (db.messages ++ [Message.mk fresh.userMsgId thread.id
        "user" req.message now
        (match req.branch_id with
         | some b => (lastBranchMessage db.messages thread.id b now).map (·.id)
         | none => none) req.branch_id]) cache0 primary reExtract fallback dbOk
      fresh.streamId fresh.assistantMsgId now2
    rw [htail]
    simp

/-- Claim C7: a chat request that passes credential and thread resolution
commits the incoming user message strictly before any upstream completion
call: the step trace starts with the user-message commit and everything
after it is an upstream call; the committed message carries the request
branch id and, when a branch is given, the parent link to the latest
prior message of that branch, and it is still in the store afterwards. -/
theorem chat_user_message_before_upstream (db : DB) (uid : Nat)
    (req : ChatRequest) (cache0 : StreamCache) (primary : UpstreamOutcome)
    (reExtract : String) (fallback : FallbackOutcome) (dbOk : Bool)
    (fresh : FreshIds) (now now2 : Nat)
    (hk : (resolveApiKey db.keys uid req.provider req.model_name).isSome = true)
    (ht : threadOk db uid req.thread_id = true) :
    ∃ m rest,
      (chat db uid req cache0 primary reExtract fallback dbOk fresh now
        now2).steps = Step.persistUserMessage m :: rest ∧
      (∀ s ∈ rest, ∃ b, s = Step.upstreamCall b) ∧
      m.role = "user" ∧ m.content = req.message ∧
      m.branch_id = req.branch_id ∧
      m.parent_message_id = (req.branch_id.bind fun b =>
        (lastBranchMessage db.messages m.thread_id b now).map (·.id)) ∧
      m ∈ (chat db uid req cache0 primary reExtract fallback dbOk fresh now
        now2).db.messages := by
  rcases hres : resolveApiKey db.keys uid req.provider req.model_name with _ | key
  · rw [hres] at hk
    simp at hk
  · rcases hth : req.thread_id with _ | tid
    · have hchat : chat db uid req cache0 primary reExtract fallback dbOk fresh
          now now2 =
          chatWithThread
            { db with threads := db.threads ++ [Thread.mk fresh.threadId uid
                (titleFor req.message) req.provider req.model_name now now] }
            req (Thread.mk fresh.threadId uid (titleFor req.message)
              req.provider req.model_name now now)
            cache0 primary reExtract fallback dbOk fresh now now2 := by
        simp [chat, hres, hth]
      obtain ⟨m, rest, h1, h2, h3, h4, h5, h6, h7⟩ := chatWithThread_spec
        { db with threads := db.threads ++ [Thread.mk fresh.threadId uid
            (titleFor req.message) req.provider req.model_name now now] }
        req (Thread.mk fresh.threadId uid (titleFor req.message) req.provider
          req.model_name now now)
        cache0 primary reExtract fallback dbOk fresh now now2
      exact ⟨m, rest, by rw [hchat]; exact h1, h2, h3, h4, h5, h6,
        by rw [hchat]; exact h7⟩
    · rw [hth] at ht
      rcases hfind : db.threads.find? (fun t => t.id == tid && t.user_id == uid)
        with _ | t
      · simp [threadOk, hfind] at ht
      · have hchat : chat db uid req cache0 primary reExtract fallback dbOk
            fresh now now2 =
            chatWithThread db req t cache0 primary reExtract fallback dbOk
              fresh now now2 := by
          simp [chat, hres, hth, hfind]
        obtain ⟨m, rest, h1, h2, h3, h4, h5, h6, h7⟩ := chatWithThread_spec db
          req t cache0 primary reExtract fallback dbOk fresh now now2
        exact ⟨m, rest, by rw [hchat]; exact h1, h2, h3, h4, h5, h6,
          by rw [hchat]; exact h7⟩

/-- Witness for C7: with a stored key and an owned thread, the concrete
trace starts with the user-message commit followed only by upstream
calls. -/
theorem chat_user_before_upstream_witness :
    (resolveApiKey wDB.keys 7 wReqPlain.provider wReqPlain.model_name).isSome
        = true ∧
    ∃ m rest,
      (chat wDB 7 wReqPlain [] (.ok ["hi"]) "" (.ok "") true wFresh 5 6).steps =
        Step.persistUserMessage m :: rest ∧
      (∀ s ∈ rest, ∃ b, s = Step.upstreamCall b) ∧
      m.role = "user" ∧ m.content = wReqPlain.message ∧
      m.branch_id = wReqPlain.branch_id ∧
      m.parent_message_id = (wReqPlain.branch_id.bind fun b =>
        (lastBranchMessage wDB.messages m.thread_id b 5).map (·.id)) ∧
      m ∈ (chat wDB 7 wReqPlain [] (.ok ["hi"]) "" (.ok "") true wFresh 5
        6).db.messages :=
  ⟨by decide,
    chat_user_message_before_upstream wDB 7 wReqPlain [] (.ok ["hi"]) ""
      (.ok "") true wFresh 5 6 (by decide) (by decide)⟩

end BYOK
